import Mathlib

/-
Verification development for the calendar synchronization and event-buffering
engine of the daily tray application.  The embedding follows the current
iteration of the Go source (the googleCalendarSource type: getDayEvents,
retrieveEventsAround, createEventsFromResponse) together with the notify
helper of daily.go.

Modelling conventions:
  * instants (time.Time) are integer Unix seconds; a fixed zone offset
    (the Go day.Zone() result) is an explicit integer parameter tz, so
    AddDate(0,0,n) is adding n*86400 seconds;
  * time.Truncate(24h) rounds an instant down to a multiple of 86400 s;
  * Go's int(d.Hours()/24) on a duration of whole seconds is integer
    division truncated toward zero (Int.tdiv);
  * strings.Compare is byte-lexicographic; on valid UTF-8 this is exactly
    code-point-lexicographic, so it is modelled on the char lists;
  * the provider (the Events.List network call) is a function argument from
    the issued request to a response or an error, and a date-time string of
    the payload is abstracted by its time.Parse outcome (empty field,
    malformed, or a valid instant);
  * the unbounded self-recursion of retrieveEventsAround is given explicit
    fuel; a result of none models non-termination (running out of fuel);
  * each run returns the ordered trace of provider requests it issued, so
    that properties about how many fetches happen are stated directly.
-/

/-- Byte-lexicographic comparison of char lists: the model of Go
strings.Compare(a, b) <= 0 restricted to what the sort comparator needs. -/
def charListLe : List Char → List Char → Bool
  | [], _ => true
  | _ :: _, [] => false
  | a :: as, b :: bs => if a < b then true else if b < a then false else charListLe as bs

/-- Order on strings induced by byte order (Go strings.Compare(a, b) <= 0). -/
def strLe (a b : String) : Bool := charListLe a.data b.data

/-- RSVP status string (daily.go type responseStatus). -/
abbrev responseStatus := String

/-- Canonical calendar event record (daily.go type event). -/
structure event where
  id : String
  title : String
  start : Int
  end_ : Int
  location : String
  details : String
  notifiable : Bool
  notified : Bool
  response : responseStatus
  recurring : Bool
deriving Repr, DecidableEq

/-- Calendar-day equality in the local zone (daily.go isOnSameDay): with a
fixed offset tz, two instants share a civil date iff the floor-days of their
zone-shifted seconds agree. -/
def isOnSameDay (tz one other : Int) : Bool :=
  (one + tz) / 86400 == (other + tz) / 86400

/-- Go time.Truncate(24 * time.Hour): round the instant down to a multiple of
one day (86400 s). -/
def truncDay (t : Int) : Int := t / 86400 * 86400

/-- Outcome of reading one provider date-time string and parsing it with
time.Parse(RFC3339): the field was empty, unparsable, or a valid instant. -/
inductive dateTimeField where
  | empty
  | malformed
  | valid (t : Int)
deriving Repr, DecidableEq

/-- Attendee entry of a provider item (calendar.EventAttendee). -/
structure apiAttendee where
  self : Bool
  responseStatus : String
deriving Repr, DecidableEq

/-- Conference entry point of a provider item (calendar.EntryPoint). -/
structure apiEntryPoint where
  entryPointType : String
  uri : String
deriving Repr, DecidableEq

/-- Structured conference data of a provider item (calendar.ConferenceData). -/
structure apiConferenceData where
  entryPoints : List apiEntryPoint
deriving Repr, DecidableEq

/-- Fields of a provider item (calendar.Event) that createEventsFromResponse
consumes. -/
structure apiItem where
  id : String
  status : String
  summary : String
  description : String
  start : dateTimeField
  end_ : dateTimeField
  attendees : List apiAttendee
  transparency : String
  recurringEventId : String
  hangoutLink : String
  location : String
  conferenceData : Option apiConferenceData
deriving Repr, DecidableEq

/-- Provider response to an Events.List call (calendar.Events). -/
structure apiResponse where
  items : List apiItem
  nextSyncToken : String
  nextPageToken : String
deriving Repr, DecidableEq

/-- Shape of the Events.List request the engine issues: an incremental request
carries the stored sync token, a full request carries the window bounds
(TimeMin/TimeMax). -/
structure listRequest where
  calendarId : String
  syncToken : Option String
  timeMin : Option Int
  timeMax : Option Int
deriving Repr, DecidableEq

/-- Provider-side failure of the Events.List call; gone is HTTP 410
(googleapi.Error with Code http.StatusGone). -/
inductive apiError where
  | gone
  | other (code : Nat)
deriving Repr, DecidableEq

/-- Errors retrieveEventsAround can propagate: a provider error, or a
time.Parse failure on a payload timestamp. -/
inductive syncError where
  | provider (e : apiError)
  | parse
deriving Repr, DecidableEq

/-- Persisted app preferences the engine reads and writes
(dailyApp.Preferences(): calendar-id and calendar-sync-token). -/
structure Prefs where
  calendarId : String
  syncToken : String
deriving Repr, DecidableEq

/-- Mutable fields of googleCalendarSource. -/
structure gcalState where
  eventsBuffer : List event
  requestStartDate : Int
  requestEndDate : Int
deriving Repr, DecidableEq

/-- Engine state plus the persisted preferences it mutates. -/
structure FullState where
  gcal : gcalState
  prefs : Prefs
deriving Repr, DecidableEq

/-- Upsert into the reconciliation map (Go map assignment result[id] = e). -/
def upsert (m : List (String × event)) (k : String) (v : event) : List (String × event) :=
  if m.any (fun p => p.1 == k) then m.map (fun p => if p.1 == k then (k, v) else p)
  else m ++ [(k, v)]

/-- Removal from the reconciliation map (Go delete(result, id)). -/
def deleteKey (m : List (String × event)) (k : String) : List (String × event) :=
  m.filter (fun p => p.1 != k)

/-- Scan of item.Attendees for the entry flagged self; the zero value "" when
no attendee is marked self. -/
def selfResponseOf : List apiAttendee → responseStatus
  | [] => ""
  | a :: rest => if a.self then a.responseStatus else selfResponseOf rest

/-- URI of the first conference entry point whose type is video; the zero
value "" when the loop finds none. -/
def videoEntryPointUri : List apiEntryPoint → String
  | [] => ""
  | ep :: rest => if ep.entryPointType == "video" then ep.uri else videoEntryPointUri rest

/-- Event built from one parsed provider item (the newEvent construction
inside createEventsFromResponse); now is the reconciliation instant
(time.Now()). -/
def eventFromItem (now : Int) (item : apiItem) (eventStart eventEnd : Int) : event :=
  let selfResponse := selfResponseOf item.attendees
  { id := item.id
    title := item.summary
    start := eventStart
    end_ := eventEnd
    location :=
      match item.conferenceData with
      | some cd => videoEntryPointUri cd.entryPoints
      | none => if item.hangoutLink != "" then item.hangoutLink else item.location
    details := item.description
    notifiable := selfResponse != "declined" && item.transparency != "transparent"
      && decide (now < eventStart)
    notified := false
    response := selfResponse
    recurring := item.recurringEventId != "" }

/-- Loop body of createEventsFromResponse for one response item: a cancelled
item is removed by id, an item with an empty start date-time (an all-day
event) is skipped, any other item is parsed and upserted; a parse failure
aborts the batch. -/
def reconcileItem (now : Int) (m : List (String × event)) (item : apiItem) :
    Except syncError (List (String × event)) :=
  if item.status == "cancelled" then .ok (deleteKey m item.id)
  else
    match item.start with
    | .empty => .ok m
    | .malformed => .error .parse
    | .valid eventStart =>
      match item.end_ with
      | .valid eventEnd =>
        let newEvent := eventFromItem now item eventStart eventEnd
        .ok (upsert m newEvent.id newEvent)
      | _ => .error .parse

/-- createEventsFromResponse of googleCalendarSource: prepopulate the map from
the existing buffer when the sync is incremental, then fold the response
items; any parse failure discards the whole batch. -/
def createEventsFromResponse (now : Int) (buffer : List event) (isIncremental : Bool)
    (response : apiResponse) : Except syncError (List (String × event)) :=
  let init : List (String × event) :=
    if isIncremental then buffer.foldl (fun m e => upsert m e.id e) [] else []
  response.items.foldlM (reconcileItem now) init

/-- Boolean form of the slices.SortFunc comparator (cmp a b <= 0): ascending
start instant, ties broken by strings.Compare on the title. -/
def eventLe (a b : event) : Bool :=
  if a.start < b.start then true
  else if b.start < a.start then false
  else strLe a.title b.title

/-- Propositional form of the sort comparator. -/
def eventLE : event → event → Prop := fun a b => eventLe a b = true

instance : DecidableRel eventLE := fun a b => by
  unfold eventLE
  infer_instance

/-- Sorting of the flattened buffer (slices.SortFunc with the comparator
above; Go's unstable sort is modelled by any sorted permutation). -/
def sortEvents (l : List event) : List event := List.insertionSort eventLE l

/-- Window start the call adopts: day.AddDate(0,0,-5).Truncate(24h) shifted
back by the zone offset. -/
def newStartDate (tz day : Int) : Int := truncDay (day - 5 * 86400) - tz

/-- Window end the call adopts: day.AddDate(0,0,5).Truncate(24h) shifted back
by the zone offset. -/
def newEndDate (tz day : Int) : Int := truncDay (day + 5 * 86400) - tz

/-- Sync-mode test of retrieveEventsAround: incremental iff a sync token is
stored, the buffer is non-empty, and the newly computed window start equals
the tracked one. -/
def isIncrementalSync (s : FullState) (tz day : Int) : Bool :=
  s.prefs.syncToken != "" && !s.gcal.eventsBuffer.isEmpty
    && s.gcal.requestStartDate == newStartDate tz day

/-- Request retrieveEventsAround issues: the sync token for an incremental
sync, the window bounds for a full sync. -/
def requestFor (s : FullState) (tz day : Int) : listRequest :=
  if isIncrementalSync s tz day then
    { calendarId := s.prefs.calendarId, syncToken := some s.prefs.syncToken
      timeMin := none, timeMax := none }
  else
    { calendarId := s.prefs.calendarId, syncToken := none
      timeMin := some (newStartDate tz day), timeMax := some (newEndDate tz day) }

/-- Result of one retrieveEventsAround call: the final state, the trace of
provider requests issued (in order), and the propagated error, if any. -/
structure RetrieveOut where
  s : FullState
  trace : List listRequest
  err : Option syncError
deriving Repr, DecidableEq

/-- retrieveEventsAround of googleCalendarSource.  The window bounds are
assigned before the request is issued; on HTTP Gone the stored token and the
buffer are cleared and the call retries itself (consuming fuel); on any other
provider error or on a parse error the error is propagated; on success the
token is persisted and the reconciled, sorted buffer replaces the old one. -/
def retrieveEventsAround (provider : listRequest → Except apiError apiResponse)
    (now tz : Int) : Nat → FullState → Int → Option RetrieveOut
  | 0, _, _ => none
  | fuel + 1, s, day =>
    let isIncremental := isIncrementalSync s tz day
    let req := requestFor s tz day
    let s1 : FullState :=
      { s with gcal := { s.gcal with requestStartDate := newStartDate tz day
                                     requestEndDate := newEndDate tz day } }
    match provider req with
    | .error .gone =>
      let s2 : FullState :=
        { gcal := { s1.gcal with eventsBuffer := [] }
          prefs := { s1.prefs with syncToken := "" } }
      match retrieveEventsAround provider now tz fuel s2 day with
      | none => none
      | some out => some { out with trace := req :: out.trace }
    | .error e => some { s := s1, trace := [req], err := some (.provider e) }
    | .ok response =>
      let s2 : FullState :=
        { s1 with prefs := { s1.prefs with syncToken := response.nextSyncToken } }
      match createEventsFromResponse now s.gcal.eventsBuffer isIncremental response with
      | .error e2 => some { s := s2, trace := [req], err := some e2 }
      | .ok eventsMap =>
        some { s := { s2 with gcal :=
                 { s2.gcal with eventsBuffer := sortEvents (eventsMap.map Prod.snd) } }
               trace := [req], err := none }

/-- Go int(d.Hours()/24) for a duration of d seconds: division by one day,
truncated toward zero. -/
def wholeDays (d : Int) : Int := d.tdiv 86400

/-- Refresh margin of getDayEvents, in days. -/
def minBufferThreshold : Int := 2

/-- First buffer check of getDayEvents: the requested day is fewer than
minBufferThreshold whole days after the tracked window start. -/
def tooCloseToBufferStart (s : FullState) (day : Int) : Bool :=
  wholeDays (day - s.gcal.requestStartDate) < minBufferThreshold

/-- Second buffer check of getDayEvents: the tracked window end is fewer than
minBufferThreshold whole days after the requested day. -/
def tooCloseToBufferEnd (s : FullState) (day : Int) : Bool :=
  wholeDays (s.gcal.requestEndDate - day) < minBufferThreshold

instance : DecidableEq (Except syncError (List event)) := fun a b =>
  match a, b with
  | .ok x, .ok y =>
    if h : x = y then isTrue (by rw [h]) else isFalse (by intro hc; cases hc; exact h rfl)
  | .error x, .error y =>
    if h : x = y then isTrue (by rw [h]) else isFalse (by intro hc; cases hc; exact h rfl)
  | .ok _, .error _ => isFalse (by intro hc; cases hc)
  | .error _, .ok _ => isFalse (by intro hc; cases hc)

/-- Result of one getDayEvents call: the returned day list or error, the final
state, and how many retrieveEventsAround calls were performed. -/
structure GetOut where
  result : Except syncError (List event)
  s : FullState
  fetches : Nat
deriving Repr, DecidableEq

/-- Day filter at the end of getDayEvents: the buffer entries whose start
falls on the requested civil day. -/
def filterDay (tz day : Int) (l : List event) : List event :=
  l.filter (fun e => isOnSameDay tz day e.start)

/-- Tail of getDayEvents: the forceRetrieve branch (skipped when a refresh
already happened) followed by the day filter over the buffer. -/
def getDayEventsTail (provider : listRequest → Except apiError apiResponse)
    (now tz : Int) (fuel : Nat) (s : FullState) (day : Int)
    (forceRetrieve refreshed : Bool) (fetches : Nat) : Option GetOut :=
  if forceRetrieve && !refreshed then
    match retrieveEventsAround provider now tz fuel s day with
    | none => none
    | some out =>
      match out.err with
      | some e => some { result := .error e, s := out.s, fetches := fetches + 1 }
      | none => some { result := .ok (filterDay tz day out.s.gcal.eventsBuffer)
                       s := out.s, fetches := fetches + 1 }
  else some { result := .ok (filterDay tz day s.gcal.eventsBuffer), s := s, fetches := fetches }

/-- Middle of getDayEvents: the two buffer-threshold checks, each of which
refreshes around the requested day and propagates a failure. -/
def getDayEventsChecks (provider : listRequest → Except apiError apiResponse)
    (now tz : Int) (fuel : Nat) (s : FullState) (day : Int)
    (forceRetrieve : Bool) (fetches : Nat) (refreshed : Bool) : Option GetOut :=
  if tooCloseToBufferStart s day then
    match retrieveEventsAround provider now tz fuel s day with
    | none => none
    | some out =>
      match out.err with
      | some e => some { result := .error e, s := out.s, fetches := fetches + 1 }
      | none => getDayEventsTail provider now tz fuel out.s day forceRetrieve true (fetches + 1)
  else if tooCloseToBufferEnd s day then
    match retrieveEventsAround provider now tz fuel s day with
    | none => none
    | some out =>
      match out.err with
      | some e => some { result := .error e, s := out.s, fetches := fetches + 1 }
      | none => getDayEventsTail provider now tz fuel out.s day forceRetrieve true (fetches + 1)
  else getDayEventsTail provider now tz fuel s day forceRetrieve refreshed fetches

/-- getDayEvents of googleCalendarSource: refresh when the buffer is empty,
when the requested day is too close to either window edge, or when the caller
forces it and no refresh happened yet; then serve the buffer filtered to the
requested day. -/
def getDayEvents (provider : listRequest → Except apiError apiResponse)
    (now tz : Int) (fuel : Nat) (s : FullState) (day : Int)
    (forceRetrieve : Bool) : Option GetOut :=
  if s.gcal.eventsBuffer.isEmpty then
    match retrieveEventsAround provider now tz fuel s day with
    | none => none
    | some out =>
      match out.err with
      | some e => some { result := .error e, s := out.s, fetches := 1 }
      | none => getDayEventsChecks provider now tz fuel out.s day forceRetrieve 1 true
  else getDayEventsChecks provider now tz fuel s day forceRetrieve 0 false

/-- Effect of daily.go notify on the event value the UI holds: the copy's
notifiable flag is cleared after the notification is sent. -/
def notifyEvent (e : event) : event := { e with notifiable := false }

/-- Spec-side location rule, following the amended wording: when structured
conference data is present, the URI of the first entry point of type video
(empty when none of the entry points is video); only when conference data is
absent, the legacy hangout link when non-empty, else the plain location
text. -/
def locationSpec (item : apiItem) : String :=
  match item.conferenceData with
  | some cd =>
    match cd.entryPoints.find? (fun ep => ep.entryPointType == "video") with
    | some ep => ep.uri
    | none => ""
  | none => if item.hangoutLink ≠ "" then item.hangoutLink else item.location

/-- Item on which the stated location precedence fails: it carries conference
data whose only entry point is not of type video, together with a non-empty
hangout link, yet the reconciled event's location is empty rather than the
hangout link. -/
def c6item : apiItem :=
  { id := "c6", status := "confirmed", summary := "standup", description := ""
    start := .valid 0, end_ := .valid 3600, attendees := []
    transparency := "", recurringEventId := "", hangoutLink := "https://h.example/x"
    location := "Room 1"
    conferenceData := some { entryPoints := [{ entryPointType := "phone", uri := "tel:123" }] } }

/-- Provider that always fails with a non-Gone error. -/
def c1P : listRequest → Except apiError apiResponse := fun _ => .error (.other 500)

/-- Pre-call engine state for the C1 counterexample: the tracked window starts
at instant 0 and the buffer holds one event. -/
def c1S : FullState :=
  { gcal := { eventsBuffer := [{ id := "a", title := "standup", start := 60, end_ := 120
                                 location := "", details := "", notifiable := true
                                 notified := false, response := "", recurring := false }]
              requestStartDate := 0, requestEndDate := 864000 }
    prefs := { calendarId := "c", syncToken := "t" } }

/-- State retrieveEventsAround retries from after a Gone response: cleared
token, cleared buffer, freshly assigned window. -/
def clearedState (s : FullState) (tz day : Int) : FullState :=
  { gcal := { eventsBuffer := [], requestStartDate := newStartDate tz day
              requestEndDate := newEndDate tz day }
    prefs := { calendarId := s.prefs.calendarId, syncToken := "" } }

/-- Provider for the C2 witness: Gone on any request carrying a sync token,
an empty successful response on any full request. -/
def c2P : listRequest → Except apiError apiResponse := fun req =>
  if req.syncToken.isSome then .error .gone
  else .ok { items := [], nextSyncToken := "fresh", nextPageToken := "" }

/-- Incremental-mode state for the C2 witness: token stored, cache non-empty,
tracked window start equal to the newly computed one for day 432000. -/
def c2S : FullState :=
  { gcal := { eventsBuffer := [{ id := "a", title := "standup", start := 60, end_ := 120
                                 location := "", details := "", notifiable := true
                                 notified := false, response := "", recurring := false }]
              requestStartDate := 0, requestEndDate := 864000 }
    prefs := { calendarId := "cal", syncToken := "t" } }

/-- Provider that always succeeds with an empty response. -/
def c10P : listRequest → Except apiError apiResponse :=
  fun _ => .ok { items := [], nextSyncToken := "t", nextPageToken := "" }

/-- Arbitrary engine state for the C10 witness. -/
def c10S : FullState :=
  { gcal := { eventsBuffer := [], requestStartDate := 0, requestEndDate := 0 }
    prefs := { calendarId := "cal", syncToken := "t" } }

/-- Event "alpha" of the C4 witness scenario. -/
def c4evA : event :=
  { id := "a", title := "alpha", start := 36000, end_ := 37800, location := ""
    details := "", notifiable := true, notified := false, response := "", recurring := false }

/-- Event "beta" of the C4 witness scenario, same start instant as "alpha". -/
def c4evB : event :=
  { id := "b", title := "beta", start := 36000, end_ := 39600, location := ""
    details := "", notifiable := true, notified := false, response := "", recurring := false }

/-- Day list the C4 witness run returns. -/
def c4L : List event := [c4evA, c4evB]

/-- Provider for the C4 witness (never reached: the run is served from cache). -/
def c4P : listRequest → Except apiError apiResponse := fun _ => .error (.other 1)

/-- Cached state for the C4 witness: sorted buffer, wide tracked window. -/
def c4S : FullState :=
  { gcal := { eventsBuffer := [c4evA, c4evB], requestStartDate := -432000
              requestEndDate := 432000 }
    prefs := { calendarId := "cal", syncToken := "t" } }

/-- Provider for the C7 witness: always a successful empty response. -/
def c7P : listRequest → Except apiError apiResponse :=
  fun _ => .ok { items := [], nextSyncToken := "t2", nextPageToken := "" }

/-- State for the C7 witness: non-empty cache, requested day half a day after
the tracked window start. -/
def c7S : FullState :=
  { gcal := { eventsBuffer := [c4evA], requestStartDate := 0, requestEndDate := 864000 }
    prefs := { calendarId := "cal", syncToken := "t" } }

/-- Provider for the C8 counterexample: every request succeeds with an empty
item list and the same sync token the state already stores. -/
def c8P : listRequest → Except apiError apiResponse :=
  fun _ => .ok { items := [], nextSyncToken := "t", nextPageToken := "" }

/-- State for the C8 counterexample: window already centered on day 0, sync
token stored, but the cache is empty (the window holds no events). -/
def c8S : FullState :=
  { gcal := { eventsBuffer := [], requestStartDate := -432000, requestEndDate := 432000 }
    prefs := { calendarId := "cal", syncToken := "t" } }

/-- Provider for the C8 witness: a full sync returns one event. -/
def c8wP : listRequest → Except apiError apiResponse :=
  fun _ => .ok { items := [{ id := "a", status := "confirmed", summary := "standup"
                             description := "", start := .valid 36000, end_ := .valid 37800
                             attendees := [], transparency := "", recurringEventId := ""
                             hangoutLink := "", location := "", conferenceData := none }]
                 nextSyncToken := "tk", nextPageToken := "" }

/-- Initial state for the C8 witness: empty cache, no token. -/
def c8wS : FullState :=
  { gcal := { eventsBuffer := [], requestStartDate := 0, requestEndDate := 0 }
    prefs := { calendarId := "cal", syncToken := "" } }

/-- State after the first C8 witness call: one cached event, fresh window and
token. -/
def c8wS2 : FullState :=
  { gcal := { eventsBuffer := [{ id := "a", title := "standup", start := 36000, end_ := 37800
                                 location := "", details := "", notifiable := true
                                 notified := false, response := "", recurring := false }]
              requestStartDate := -432000, requestEndDate := 432000 }
    prefs := { calendarId := "cal", syncToken := "tk" } }

/-- Reformulation of the incremental-sync test as a conjunction of the three
plain conditions. -/
lemma isIncrementalSync_iff (s : FullState) (tz day : Int) :
    isIncrementalSync s tz day = true ↔
      (s.prefs.syncToken ≠ "" ∧ s.gcal.eventsBuffer ≠ [] ∧
        s.gcal.requestStartDate = newStartDate tz day) := by
  simp [isIncrementalSync, List.isEmpty_iff, and_assoc]

/-- The first request any retrieveEventsAround call issues is requestFor. -/
lemma retrieveEventsAround_trace_head
    (P : listRequest → Except apiError apiResponse) (now tz : Int) (fuel : Nat)
    (s : FullState) (day : Int) (out : RetrieveOut)
    (h : retrieveEventsAround P now tz (fuel + 1) s day = some out) :
    out.trace.head? = some (requestFor s tz day) := by
  simp only [retrieveEventsAround] at h
  split at h
  · split at h
    · exact absurd h (by simp)
    · cases h
      rfl
  · cases h
    rfl
  · split at h
    · cases h
      rfl
    · cases h
      rfl

/-- C5: an event reconciled from a provider item is notifiable iff the self
RSVP is not declined, the item is not marked transparent, and the item's start
is strictly in the future at reconciliation time. -/
theorem eventFromItem_notifiable_iff (now : Int) (item : apiItem) (eventStart eventEnd : Int) :
    (eventFromItem now item eventStart eventEnd).notifiable = true ↔
      (selfResponseOf item.attendees ≠ "declined" ∧
        item.transparency ≠ "transparent" ∧ now < eventStart) := by
  simp [eventFromItem, and_assoc]

lemma videoEntryPointUri_eq_find (l : List apiEntryPoint) :
    videoEntryPointUri l =
      match l.find? (fun ep => ep.entryPointType == "video") with
      | some ep => ep.uri
      | none => "" := by
  induction l with
  | nil => rfl
  | cons ep rest ih =>
    by_cases h : ep.entryPointType = "video"
    · rw [List.find?_cons_of_pos _ (by simp [h])]
      simp [videoEntryPointUri, h]
    · rw [List.find?_cons_of_neg _ (by simp [h])]
      rw [← ih]
      simp [videoEntryPointUri, h]

/-- C6 counterexample: a concrete item with conference data but no video entry
point and a non-empty hangout link reconciles to an event whose location is
empty, not the hangout link the claimed precedence would demand. -/
theorem eventFromItem_location_counterexample :
    (eventFromItem 0 c6item 0 3600).location = "" ∧
      c6item.hangoutLink ≠ "" ∧
      (eventFromItem 0 c6item 0 3600).location ≠ c6item.hangoutLink ∧
      (match c6item.conferenceData with
       | some cd => cd.entryPoints.all (fun ep => ep.entryPointType != "video")
       | none => false) = true := by
  refine ⟨rfl, by decide, by decide, rfl⟩

/-- C1 counterexample: a call for a day twenty days out fails with a non-Gone
provider error; the buffer and the stored token are untouched, but the tracked
window bounds have been overwritten with the newly computed window, so they do
not equal their pre-call values as claimed. -/
theorem retrieveEventsAround_error_counterexample :
    retrieveEventsAround c1P 0 0 1 c1S 1728000 =
      some { s := { gcal := { eventsBuffer := c1S.gcal.eventsBuffer
                              requestStartDate := 1296000, requestEndDate := 2160000 }
                    prefs := c1S.prefs }
             trace := [{ calendarId := "c", syncToken := none
                         timeMin := some 1296000, timeMax := some 2160000 }]
             err := some (.provider (.other 500)) } ∧
      (1296000 : Int) ≠ c1S.gcal.requestStartDate ∧
      (2160000 : Int) ≠ c1S.gcal.requestEndDate := by
  refine ⟨by decide, by decide, by decide⟩

/-- C1 amended: when the provider fails with an error other than Gone, the
error is propagated and the event cache and the stored sync token are left
unchanged, but the tracked window bounds are overwritten with the newly
computed window at the start of the call, whether or not the call succeeds. -/
theorem retrieveEventsAround_nonGone_frame
    (P : listRequest → Except apiError apiResponse) (now tz : Int) (fuel : Nat)
    (s : FullState) (day : Int) (code : Nat) (out : RetrieveOut)
    (hP : P (requestFor s tz day) = .error (.other code))
    (hrun : retrieveEventsAround P now tz (fuel + 1) s day = some out) :
    out.err = some (.provider (.other code)) ∧
      out.s.gcal.eventsBuffer = s.gcal.eventsBuffer ∧
      out.s.prefs = s.prefs ∧
      out.s.gcal.requestStartDate = newStartDate tz day ∧
      out.s.gcal.requestEndDate = newEndDate tz day ∧
      out.trace = [requestFor s tz day] := by
  simp only [retrieveEventsAround, hP] at hrun
  cases hrun
  exact ⟨rfl, rfl, rfl, rfl, rfl, rfl⟩

theorem retrieveEventsAround_nonGone_frame_witness :
    c1P (requestFor c1S 0 1728000) = .error (.other 500) ∧
      ((retrieveEventsAround c1P 0 0 1 c1S 1728000).map RetrieveOut.err =
        some (some (.provider (.other 500)))) := by
  have h : retrieveEventsAround c1P 0 0 1 c1S 1728000 =
      some { s := { gcal := { eventsBuffer := c1S.gcal.eventsBuffer
                              requestStartDate := 1296000, requestEndDate := 2160000 }
                    prefs := c1S.prefs }
             trace := [{ calendarId := "c", syncToken := none
                         timeMin := some 1296000, timeMax := some 2160000 }]
             err := some (.provider (.other 500)) } := by decide
  have hmain := retrieveEventsAround_nonGone_frame c1P 0 0 0 c1S 1728000 500 _ rfl h
  exact ⟨rfl, by rw [h]; simp [hmain.1]⟩

/-- C3: the sync is incremental exactly when a token is stored, the cache is
non-empty, and the newly computed window start equals the tracked one: the
first request a call issues carries the stored sync token in that case and is
otherwise a full request over the computed window. -/
theorem retrieveEventsAround_sync_mode
    (P : listRequest → Except apiError apiResponse) (now tz : Int) (fuel : Nat)
    (s : FullState) (day : Int) (out : RetrieveOut)
    (hrun : retrieveEventsAround P now tz (fuel + 1) s day = some out) :
    out.trace.head? = some
      (if s.prefs.syncToken ≠ "" ∧ s.gcal.eventsBuffer ≠ [] ∧
           s.gcal.requestStartDate = newStartDate tz day then
         { calendarId := s.prefs.calendarId, syncToken := some s.prefs.syncToken
           timeMin := none, timeMax := none }
       else
         { calendarId := s.prefs.calendarId, syncToken := none
           timeMin := some (newStartDate tz day), timeMax := some (newEndDate tz day) }) := by
  rw [retrieveEventsAround_trace_head P now tz fuel s day out hrun]
  unfold requestFor
  by_cases h : s.prefs.syncToken ≠ "" ∧ s.gcal.eventsBuffer ≠ [] ∧
      s.gcal.requestStartDate = newStartDate tz day
  · rw [if_pos ((isIncrementalSync_iff s tz day).mpr h), if_pos h]
  · rw [if_neg (fun hb => h ((isIncrementalSync_iff s tz day).mp hb)), if_neg h]

theorem retrieveEventsAround_sync_mode_witness :
    ((retrieveEventsAround c1P 0 0 1 c1S 1728000).map
        (fun o => o.trace.head?)) =
      some (some { calendarId := "c", syncToken := none
                   timeMin := some 1296000, timeMax := some 2160000 }) := by
  have h : retrieveEventsAround c1P 0 0 1 c1S 1728000 =
      some { s := { gcal := { eventsBuffer := c1S.gcal.eventsBuffer
                              requestStartDate := 1296000, requestEndDate := 2160000 }
                    prefs := c1S.prefs }
             trace := [{ calendarId := "c", syncToken := none
                         timeMin := some 1296000, timeMax := some 2160000 }]
             err := some (.provider (.other 500)) } := by decide
  have hmain := retrieveEventsAround_sync_mode c1P 0 0 0 c1S 1728000 _ h
  have hcond : ¬(c1S.prefs.syncToken ≠ "" ∧ c1S.gcal.eventsBuffer ≠ [] ∧
      c1S.gcal.requestStartDate = newStartDate 0 1728000) := by decide
  rw [if_neg hcond] at hmain
  rw [h, Option.map_some', hmain]
  decide

/-- Unfolding of one retrieveEventsAround step whose provider call fails with
Gone: the stored token and the buffer are cleared and the call retries. -/
lemma retrieveEventsAround_gone_step
    (P : listRequest → Except apiError apiResponse) (now tz : Int) (fuel : Nat)
    (s : FullState) (day : Int)
    (hP : P (requestFor s tz day) = .error .gone) :
    retrieveEventsAround P now tz (fuel + 1) s day =
      match retrieveEventsAround P now tz fuel (clearedState s tz day) day with
      | none => none
      | some out => some { out with trace := requestFor s tz day :: out.trace } := by
  simp only [retrieveEventsAround, hP]
  rfl

/-- Unfolding of one successful full-sync retrieveEventsAround step. -/
lemma retrieveEventsAround_full_step
    (P : listRequest → Except apiError apiResponse) (now tz : Int) (fuel : Nat)
    (s : FullState) (day : Int) (resp : apiResponse) (m : List (String × event))
    (hfull : isIncrementalSync s tz day = false)
    (hP : P (requestFor s tz day) = .ok resp)
    (hrec : createEventsFromResponse now s.gcal.eventsBuffer false resp = .ok m) :
    retrieveEventsAround P now tz (fuel + 1) s day =
      some { s := { gcal := { eventsBuffer := sortEvents (m.map Prod.snd)
                              requestStartDate := newStartDate tz day
                              requestEndDate := newEndDate tz day }
                    prefs := { calendarId := s.prefs.calendarId
                               syncToken := resp.nextSyncToken } }
             trace := [requestFor s tz day], err := none } := by
  simp only [retrieveEventsAround, hP, hfull, hrec]

/-- A call whose first provider response is not Gone resolves within its own
step (no recursion, hence no fuel exhaustion). -/
lemma retrieveEventsAround_ne_none_of_nonGone
    (P : listRequest → Except apiError apiResponse) (now tz : Int) (fuel : Nat)
    (s : FullState) (day : Int)
    (h : P (requestFor s tz day) ≠ .error .gone) :
    retrieveEventsAround P now tz (fuel + 1) s day ≠ none := by
  simp only [retrieveEventsAround]
  cases hp : P (requestFor s tz day) with
  | ok resp =>
    cases hr : createEventsFromResponse now s.gcal.eventsBuffer (isIncrementalSync s tz day) resp with
    | ok m => simp [hr]
    | error e => simp [hr]
  | error e =>
    cases e with
    | gone => exact absurd hp h
    | other code => simp

/-- C2: when an incremental sync gets the Gone signal, the engine clears the
stored token and the cache and retries exactly once as a full sync over the
computed window; assuming that retried full sync succeeds, the caller sees no
error, the new token is persisted and the cache is rebuilt from the retried
response alone. -/
theorem retrieveEventsAround_gone_recovery
    (P : listRequest → Except apiError apiResponse) (now tz : Int) (fuel : Nat)
    (s : FullState) (day : Int) (resp : apiResponse) (m : List (String × event))
    (out : RetrieveOut)
    (hinc : isIncrementalSync s tz day = true)
    (hP1 : P (requestFor s tz day) = .error .gone)
    (hP2 : P { calendarId := s.prefs.calendarId, syncToken := none
               timeMin := some (newStartDate tz day)
               timeMax := some (newEndDate tz day) } = .ok resp)
    (hrec : createEventsFromResponse now [] false resp = .ok m)
    (hrun : retrieveEventsAround P now tz (fuel + 1 + 1) s day = some out) :
    out.err = none ∧
      (requestFor s tz day).syncToken = some s.prefs.syncToken ∧
      out.trace = [requestFor s tz day,
        { calendarId := s.prefs.calendarId, syncToken := none
          timeMin := some (newStartDate tz day)
          timeMax := some (newEndDate tz day) }] ∧
      out.s.prefs.syncToken = resp.nextSyncToken ∧
      out.s.gcal.eventsBuffer = sortEvents (m.map Prod.snd) := by
  have hfull2 : isIncrementalSync (clearedState s tz day) tz day = false := rfl
  have hreq2 : requestFor (clearedState s tz day) tz day =
      { calendarId := s.prefs.calendarId, syncToken := none
        timeMin := some (newStartDate tz day), timeMax := some (newEndDate tz day) } := by
    unfold requestFor
    rw [if_neg (by rw [hfull2]; exact Bool.false_ne_true)]
    rfl
  have hstep2 := retrieveEventsAround_full_step P now tz fuel (clearedState s tz day) day resp m
    hfull2 (by rw [hreq2]; exact hP2) hrec
  rw [retrieveEventsAround_gone_step P now tz (fuel + 1) s day hP1] at hrun
  rw [hstep2] at hrun
  cases hrun
  refine ⟨rfl, ?_, ?_, rfl, rfl⟩
  · unfold requestFor
    rw [if_pos hinc]
  · rw [← hreq2]

theorem retrieveEventsAround_gone_recovery_witness :
    (retrieveEventsAround c2P 0 0 (0 + 1 + 1) c2S 432000).map RetrieveOut.err =
        some none ∧
      (retrieveEventsAround c2P 0 0 (0 + 1 + 1) c2S 432000).map RetrieveOut.trace =
        some [requestFor c2S 0 432000,
          { calendarId := c2S.prefs.calendarId, syncToken := none
            timeMin := some (newStartDate 0 432000)
            timeMax := some (newEndDate 0 432000) }] := by
  cases hcase : retrieveEventsAround c2P 0 0 (0 + 1 + 1) c2S 432000 with
  | none => exact absurd hcase (by decide)
  | some out =>
    have hmain := retrieveEventsAround_gone_recovery c2P 0 0 0 c2S 432000
      { items := [], nextSyncToken := "fresh", nextPageToken := "" } [] out
      rfl rfl rfl rfl hcase
    exact ⟨by rw [Option.map_some', hmain.1],
           by rw [Option.map_some', hmain.2.2.1]⟩

/-- C10: with the precondition that a request issued without a sync token (a
full sync) is never answered with Gone, every call resolves within recursion
depth two (fuel 2 suffices, whatever the state); without the precondition the
self-recursion never terminates: against a provider that always answers Gone,
every finite fuel is exhausted. -/
theorem retrieveEventsAround_termination :
    (∀ (P : listRequest → Except apiError apiResponse) (now tz : Int)
        (s : FullState) (day : Int),
      (∀ req : listRequest, req.syncToken = none → P req ≠ .error .gone) →
      retrieveEventsAround P now tz 2 s day ≠ none) ∧
    (∀ (now tz : Int) (fuel : Nat) (s : FullState) (day : Int),
      retrieveEventsAround (fun _ => .error .gone) now tz fuel s day = none) := by
  constructor
  · intro P now tz s day hful
    by_cases hg : P (requestFor s tz day) = .error .gone
    · rw [show (2 : Nat) = 1 + 1 from rfl, retrieveEventsAround_gone_step P now tz 1 s day hg]
      have hfull2 : isIncrementalSync (clearedState s tz day) tz day = false := rfl
      have hreq2 : (requestFor (clearedState s tz day) tz day).syncToken = none := by
        unfold requestFor
        rw [if_neg (by rw [hfull2]; exact Bool.false_ne_true)]
      have hne : retrieveEventsAround P now tz 1 (clearedState s tz day) day ≠ none := by
        simpa using retrieveEventsAround_ne_none_of_nonGone P now tz 0 (clearedState s tz day)
          day (hful _ hreq2)
      cases hrec : retrieveEventsAround P now tz 1 (clearedState s tz day) day with
      | none => exact absurd hrec hne
      | some out => simp
    · simpa using retrieveEventsAround_ne_none_of_nonGone P now tz 1 s day hg
  · intro now tz fuel
    induction fuel with
    | zero => intro s day; rfl
    | succ n ih =>
      intro s day
      rw [retrieveEventsAround_gone_step _ now tz n s day rfl]
      rw [ih _ day]

theorem retrieveEventsAround_termination_witness :
    retrieveEventsAround c10P 0 0 2 c10S 0 ≠ none ∧
      retrieveEventsAround (fun _ => .error .gone) 0 0 7 c10S 0 = none :=
  ⟨retrieveEventsAround_termination.1 c10P 0 0 c10S 0 (by intro req h; simp [c10P]),
   retrieveEventsAround_termination.2 0 0 7 c10S 0⟩

/-- C6 amended: the reconciled location follows the conference-data-first
precedence, falling back to the hangout link or plain text only when no
structured conference data is attached at all. -/
theorem eventFromItem_location (now : Int) (item : apiItem) (eventStart eventEnd : Int) :
    (eventFromItem now item eventStart eventEnd).location = locationSpec item := by
  unfold eventFromItem locationSpec
  cases item.conferenceData with
  | some cd => simp [videoEntryPointUri_eq_find]
  | none =>
    by_cases h : item.hangoutLink = ""
    · simp [h]
    · simp [h]

lemma charListLe_trans : ∀ as bs cs, charListLe as bs = true → charListLe bs cs = true →
    charListLe as cs = true := by
  intro as
  induction as with
  | nil => intro bs cs _ _; rfl
  | cons a as ih =>
    intro bs cs h1 h2
    cases bs with
    | nil => exact absurd h1 (by simp [charListLe])
    | cons b bs =>
      cases cs with
      | nil => exact absurd h2 (by simp [charListLe])
      | cons c cs =>
        simp only [charListLe] at h1 h2 ⊢
        rcases lt_trichotomy a b with hab | hab | hab
        · rcases lt_trichotomy b c with hbc | hbc | hbc
          · rw [if_pos (lt_trans hab hbc)]
          · subst hbc; rw [if_pos hab]
          · rw [if_neg (lt_asymm hbc), if_pos hbc] at h2
            exact absurd h2 Bool.false_ne_true
        · subst hab
          rw [if_neg (lt_irrefl a), if_neg (lt_irrefl a)] at h1
          rcases lt_trichotomy a c with hac | hac | hac
          · rw [if_pos hac]
          · subst hac
            rw [if_neg (lt_irrefl a), if_neg (lt_irrefl a)] at h2 ⊢
            exact ih bs cs h1 h2
          · rw [if_neg (lt_asymm hac), if_pos hac] at h2
            exact absurd h2 Bool.false_ne_true
        · rw [if_neg (lt_asymm hab), if_pos hab] at h1
          exact absurd h1 Bool.false_ne_true

lemma charListLe_total : ∀ as bs, charListLe as bs = true ∨ charListLe bs as = true := by
  intro as
  induction as with
  | nil => intro bs; exact Or.inl rfl
  | cons a as ih =>
    intro bs
    cases bs with
    | nil => exact Or.inr rfl
    | cons b bs =>
      simp only [charListLe]
      rcases lt_trichotomy a b with h | h | h
      · exact Or.inl (by rw [if_pos h])
      · subst h
        rcases ih bs with h2 | h2
        · exact Or.inl (by rw [if_neg (lt_irrefl a), if_neg (lt_irrefl a)]; exact h2)
        · exact Or.inr (by rw [if_neg (lt_irrefl a), if_neg (lt_irrefl a)]; exact h2)
      · exact Or.inr (by rw [if_pos h])

lemma eventLe_total (a b : event) : eventLe a b = true ∨ eventLe b a = true := by
  unfold eventLe
  rcases lt_trichotomy a.start b.start with h | h | h
  · exact Or.inl (by rw [if_pos h])
  · have hna : ¬a.start < b.start := by rw [h]; exact lt_irrefl _
    have hnb : ¬b.start < a.start := by rw [h]; exact lt_irrefl _
    rcases charListLe_total a.title.data b.title.data with h2 | h2
    · exact Or.inl (by rw [if_neg hna, if_neg hnb]; exact h2)
    · exact Or.inr (by rw [if_neg hnb, if_neg hna]; exact h2)
  · exact Or.inr (by rw [if_pos h])

lemma eventLe_trans (a b c : event) (h1 : eventLe a b = true) (h2 : eventLe b c = true) :
    eventLe a c = true := by
  unfold eventLe at h1 h2 ⊢
  rcases lt_trichotomy a.start b.start with hab | hab | hab
  · rcases lt_trichotomy b.start c.start with hbc | hbc | hbc
    · rw [if_pos (lt_trans hab hbc)]
    · rw [if_pos (hbc ▸ hab)]
    · rw [if_neg (lt_asymm hbc), if_pos hbc] at h2
      exact absurd h2 Bool.false_ne_true
  · rw [if_neg (by rw [hab]; exact lt_irrefl _), if_neg (by rw [hab]; exact lt_irrefl _)] at h1
    rcases lt_trichotomy b.start c.start with hbc | hbc | hbc
    · rw [if_pos (hab ▸ hbc)]
    · rw [if_neg (by rw [hbc]; exact lt_irrefl _), if_neg (by rw [hbc]; exact lt_irrefl _)] at h2
      have hac : a.start = c.start := hab.trans hbc
      rw [if_neg (by rw [hac]; exact lt_irrefl _), if_neg (by rw [hac]; exact lt_irrefl _)]
      exact charListLe_trans _ _ _ h1 h2
    · rw [if_neg (lt_asymm hbc), if_pos hbc] at h2
      exact absurd h2 Bool.false_ne_true
  · rw [if_neg (lt_asymm hab), if_pos hab] at h1
    exact absurd h1 Bool.false_ne_true

instance : IsTotal event eventLE := ⟨fun a b => eventLe_total a b⟩

instance : IsTrans event eventLE := ⟨fun a b c => eventLe_trans a b c⟩

lemma sortEvents_pairwise (l : List event) : List.Pairwise eventLE (sortEvents l) :=
  List.sorted_insertionSort eventLE l

/-- Every state a retrieveEventsAround call leaves behind has a buffer sorted
by the comparator, provided the incoming buffer was: an error path keeps the
old buffer, a success path sorts the reconciled one. -/
lemma retrieveEventsAround_pairwise (P : listRequest → Except apiError apiResponse)
    (now tz : Int) : ∀ (fuel : Nat) (s : FullState) (day : Int) (out : RetrieveOut),
    List.Pairwise eventLE s.gcal.eventsBuffer →
    retrieveEventsAround P now tz fuel s day = some out →
    List.Pairwise eventLE out.s.gcal.eventsBuffer := by
  intro fuel
  induction fuel with
  | zero =>
    intro s day out _ hrun
    exact absurd hrun (by simp [retrieveEventsAround])
  | succ n ih =>
    intro s day out h hrun
    simp only [retrieveEventsAround] at hrun
    split at hrun
    · split at hrun
      · exact absurd hrun (by simp)
      · rename_i out' heq
        cases hrun
        exact ih _ day out' List.Pairwise.nil heq
    · cases hrun
      exact h
    · split at hrun
      · cases hrun
        exact h
      · cases hrun
        exact sortEvents_pairwise _

lemma getDayEventsTail_ok_pairwise
    (P : listRequest → Except apiError apiResponse) (now tz : Int) (fuel : Nat)
    (s : FullState) (day : Int) (forceRetrieve refreshed : Bool) (fetches : Nat)
    (out : GetOut) (l : List event)
    (h : List.Pairwise eventLE s.gcal.eventsBuffer)
    (hrun : getDayEventsTail P now tz fuel s day forceRetrieve refreshed fetches = some out)
    (hres : out.result = .ok l) :
    List.Pairwise eventLE l := by
  unfold getDayEventsTail at hrun
  split at hrun
  · split at hrun
    · exact absurd hrun (by simp)
    · rename_i out' heq
      split at hrun
      · cases hrun
        exact absurd hres (by simp)
      · cases hrun
        cases hres
        exact List.Pairwise.filter _ (retrieveEventsAround_pairwise P now tz fuel s day out' h heq)
  · cases hrun
    cases hres
    exact List.Pairwise.filter _ h

lemma getDayEventsChecks_ok_pairwise
    (P : listRequest → Except apiError apiResponse) (now tz : Int) (fuel : Nat)
    (s : FullState) (day : Int) (forceRetrieve : Bool) (fetches : Nat) (refreshed : Bool)
    (out : GetOut) (l : List event)
    (h : List.Pairwise eventLE s.gcal.eventsBuffer)
    (hrun : getDayEventsChecks P now tz fuel s day forceRetrieve fetches refreshed = some out)
    (hres : out.result = .ok l) :
    List.Pairwise eventLE l := by
  unfold getDayEventsChecks at hrun
  split at hrun
  · split at hrun
    · exact absurd hrun (by simp)
    · rename_i out' heq
      split at hrun
      · cases hrun
        exact absurd hres (by simp)
      · exact getDayEventsTail_ok_pairwise P now tz fuel out'.s day forceRetrieve true
          (fetches + 1) out l (retrieveEventsAround_pairwise P now tz fuel s day out' h heq)
          hrun hres
  · split at hrun
    · split at hrun
      · exact absurd hrun (by simp)
      · rename_i out' heq
        split at hrun
        · cases hrun
          exact absurd hres (by simp)
        · exact getDayEventsTail_ok_pairwise P now tz fuel out'.s day forceRetrieve true
            (fetches + 1) out l (retrieveEventsAround_pairwise P now tz fuel s day out' h heq)
            hrun hres
    · exact getDayEventsTail_ok_pairwise P now tz fuel s day forceRetrieve refreshed
        fetches out l h hrun hres

lemma getDayEvents_ok_pairwise
    (P : listRequest → Except apiError apiResponse) (now tz : Int) (fuel : Nat)
    (s : FullState) (day : Int) (forceRetrieve : Bool) (out : GetOut) (l : List event)
    (h : List.Pairwise eventLE s.gcal.eventsBuffer)
    (hrun : getDayEvents P now tz fuel s day forceRetrieve = some out)
    (hres : out.result = .ok l) :
    List.Pairwise eventLE l := by
  unfold getDayEvents at hrun
  split at hrun
  · split at hrun
    · exact absurd hrun (by simp)
    · rename_i out' heq
      split at hrun
      · cases hrun
        exact absurd hres (by simp)
      · exact getDayEventsChecks_ok_pairwise P now tz fuel out'.s day forceRetrieve 1 true
          out l (retrieveEventsAround_pairwise P now tz fuel s day out' h heq) hrun hres
  · exact getDayEventsChecks_ok_pairwise P now tz fuel s day forceRetrieve 0 false
      out l h hrun hres

/-- C4: in every day list getDayEvents returns (from a buffer the engine built,
i.e. one sorted by its comparator), each adjacent pair is ordered by start
ascending, and two adjacent events with equal starts are ordered by title
ascending (byte order, as strings.Compare). -/
theorem getDayEvents_day_list_ordered
    (P : listRequest → Except apiError apiResponse) (now tz : Int) (fuel : Nat)
    (s : FullState) (day : Int) (forceRetrieve : Bool) (out : GetOut) (l : List event)
    (hsorted : List.Pairwise eventLE s.gcal.eventsBuffer)
    (hrun : getDayEvents P now tz fuel s day forceRetrieve = some out)
    (hres : out.result = .ok l) :
    ∀ i (hi : i + 1 < l.length),
      (l.get ⟨i, by omega⟩).start ≤ (l.get ⟨i + 1, hi⟩).start ∧
        ((l.get ⟨i, by omega⟩).start = (l.get ⟨i + 1, hi⟩).start →
          strLe (l.get ⟨i, by omega⟩).title (l.get ⟨i + 1, hi⟩).title = true) := by
  have hp : List.Pairwise eventLE l :=
    getDayEvents_ok_pairwise P now tz fuel s day forceRetrieve out l hsorted hrun hres
  intro i hi
  have hadj : eventLE (l.get ⟨i, by omega⟩) (l.get ⟨i + 1, hi⟩) :=
    List.pairwise_iff_get.mp hp ⟨i, by omega⟩ ⟨i + 1, hi⟩ (by simp)
  unfold eventLE eventLe at hadj
  constructor
  · rcases lt_trichotomy (l.get ⟨i, by omega⟩).start (l.get ⟨i + 1, hi⟩).start with h | h | h
    · exact le_of_lt h
    · exact le_of_eq h
    · rw [if_neg (lt_asymm h), if_pos h] at hadj
      exact absurd hadj Bool.false_ne_true
  · intro heq
    rw [if_neg (by rw [heq]; exact lt_irrefl _), if_neg (by rw [heq]; exact lt_irrefl _)] at hadj
    exact hadj

theorem getDayEvents_day_list_ordered_witness :
    (c4L.get ⟨0, by decide⟩).start ≤ (c4L.get ⟨1, by decide⟩).start ∧
      ((c4L.get ⟨0, by decide⟩).start = (c4L.get ⟨1, by decide⟩).start →
        strLe (c4L.get ⟨0, by decide⟩).title (c4L.get ⟨1, by decide⟩).title = true) := by
  have hrun : getDayEvents c4P 0 0 1 c4S 43200 false =
      some { result := .ok c4L, s := c4S, fetches := 0 } := by decide
  exact getDayEvents_day_list_ordered c4P 0 0 1 c4S 43200 false
    { result := .ok c4L, s := c4S, fetches := 0 } c4L (by decide) hrun rfl 0 (by decide)

lemma tooCloseToBufferStart_iff (s : FullState) (day : Int) :
    tooCloseToBufferStart s day = true ↔
      (day - s.gcal.requestStartDate).tdiv 86400 < 2 := by
  simp [tooCloseToBufferStart, wholeDays, minBufferThreshold]

lemma tooCloseToBufferEnd_iff (s : FullState) (day : Int) :
    tooCloseToBufferEnd s day = true ↔
      (s.gcal.requestEndDate - day).tdiv 86400 < 2 := by
  simp [tooCloseToBufferEnd, wholeDays, minBufferThreshold]

lemma getDayEventsTail_fetches
    (P : listRequest → Except apiError apiResponse) (now tz : Int) (fuel : Nat)
    (s : FullState) (day : Int) (forceRetrieve refreshed : Bool) (fetches : Nat)
    (out : GetOut)
    (hrun : getDayEventsTail P now tz fuel s day forceRetrieve refreshed fetches = some out) :
    fetches ≤ out.fetches := by
  unfold getDayEventsTail at hrun
  split at hrun
  · split at hrun
    · exact absurd hrun (by simp)
    · split at hrun
      · cases hrun
        simp
      · cases hrun
        simp
  · cases hrun
    exact le_refl _

/-- C7: with a non-empty cache, a request for a day lying fewer than
minBufferThreshold (2) truncated whole days from either tracked window edge
triggers a refresh (at least one retrieveEventsAround call) even though the
force flag is false. -/
theorem getDayEvents_buffer_threshold
    (P : listRequest → Except apiError apiResponse) (now tz : Int) (fuel : Nat)
    (s : FullState) (day : Int) (out : GetOut)
    (hbuf : s.gcal.eventsBuffer ≠ [])
    (hclose : (day - s.gcal.requestStartDate).tdiv 86400 < 2 ∨
      (s.gcal.requestEndDate - day).tdiv 86400 < 2)
    (hrun : getDayEvents P now tz fuel s day false = some out) :
    1 ≤ out.fetches := by
  unfold getDayEvents at hrun
  rw [if_neg (by simpa [List.isEmpty_iff] using hbuf)] at hrun
  unfold getDayEventsChecks at hrun
  by_cases h1 : tooCloseToBufferStart s day = true
  · rw [if_pos h1] at hrun
    split at hrun
    · exact absurd hrun (by simp)
    · split at hrun
      · cases hrun
        simp
      · have := getDayEventsTail_fetches P now tz fuel _ day false true 1 out hrun
        omega
  · have h2 : tooCloseToBufferEnd s day = true := by
      rcases hclose with hc | hc
      · exact absurd ((tooCloseToBufferStart_iff s day).mpr hc) h1
      · exact (tooCloseToBufferEnd_iff s day).mpr hc
    rw [if_neg h1, if_pos h2] at hrun
    split at hrun
    · exact absurd hrun (by simp)
    · split at hrun
      · cases hrun
        simp
      · have := getDayEventsTail_fetches P now tz fuel _ day false true 1 out hrun
        omega

theorem getDayEvents_buffer_threshold_witness :
    ((getDayEvents c7P 0 0 1 c7S 43200 false).map GetOut.fetches).any (fun n => 1 ≤ n) = true := by
  cases hcase : getDayEvents c7P 0 0 1 c7S 43200 false with
  | none => exact absurd hcase (by decide)
  | some out =>
    have hmain := getDayEvents_buffer_threshold c7P 0 0 1 c7S 43200 out
      (by decide) (Or.inl (by decide)) hcase
    simp [hmain]

/-- With forceRetrieve false the tail of getDayEvents performs no fetch and
serves the buffer filtered to the day. -/
lemma getDayEventsTail_false_state
    (P : listRequest → Except apiError apiResponse) (now tz : Int) (fuel : Nat)
    (s : FullState) (day : Int) (refreshed : Bool) (fetches : Nat) :
    getDayEventsTail P now tz fuel s day false refreshed fetches =
      some { result := .ok (filterDay tz day s.gcal.eventsBuffer)
             s := s, fetches := fetches } := by
  unfold getDayEventsTail
  rw [Bool.false_and, if_neg Bool.false_ne_true]

/-- Any state a retrieveEventsAround call leaves behind carries the newly
computed window bounds for the requested day. -/
lemma retrieveEventsAround_window (P : listRequest → Except apiError apiResponse)
    (now tz : Int) : ∀ (fuel : Nat) (s : FullState) (day : Int) (out : RetrieveOut),
    retrieveEventsAround P now tz fuel s day = some out →
    out.s.gcal.requestStartDate = newStartDate tz day ∧
      out.s.gcal.requestEndDate = newEndDate tz day := by
  intro fuel
  induction fuel with
  | zero =>
    intro s day out hrun
    exact absurd hrun (by simp [retrieveEventsAround])
  | succ n ih =>
    intro s day out hrun
    simp only [retrieveEventsAround] at hrun
    split at hrun
    · split at hrun
      · exact absurd hrun (by simp)
      · rename_i out' heq
        cases hrun
        exact ih _ day out' heq
    · cases hrun
      exact ⟨rfl, rfl⟩
    · split at hrun
      · cases hrun
        exact ⟨rfl, rfl⟩
      · cases hrun
        exact ⟨rfl, rfl⟩

/-- When the incoming window already equals the newly computed one, a
successful force-free getDayEventsChecks run also ends with that window. -/
lemma getDayEventsChecks_ok_window
    (P : listRequest → Except apiError apiResponse) (now tz : Int) (fuel : Nat)
    (s : FullState) (day : Int) (fetches : Nat) (refreshed : Bool)
    (out : GetOut) (l : List event)
    (hwin : s.gcal.requestStartDate = newStartDate tz day ∧
      s.gcal.requestEndDate = newEndDate tz day)
    (hrun : getDayEventsChecks P now tz fuel s day false fetches refreshed = some out)
    (hres : out.result = .ok l) :
    out.s.gcal.requestStartDate = newStartDate tz day ∧
      out.s.gcal.requestEndDate = newEndDate tz day := by
  unfold getDayEventsChecks at hrun
  split at hrun
  · split at hrun
    · exact absurd hrun (by simp)
    · rename_i out' heq
      split at hrun
      · cases hrun
        exact absurd hres (by simp)
      · rw [getDayEventsTail_false_state] at hrun
        cases hrun
        exact retrieveEventsAround_window P now tz fuel s day out' heq
  · split at hrun
    · split at hrun
      · exact absurd hrun (by simp)
      · rename_i out' heq
        split at hrun
        · cases hrun
          exact absurd hres (by simp)
        · rw [getDayEventsTail_false_state] at hrun
          cases hrun
          exact retrieveEventsAround_window P now tz fuel s day out' heq
    · rw [getDayEventsTail_false_state] at hrun
      cases hrun
      exact hwin

/-- A successful force-free getDayEvents call either left the state untouched
(cache was non-empty and the day was safely inside the window) or ended with
the freshly computed window for the requested day. -/
lemma getDayEvents_ok_state
    (P : listRequest → Except apiError apiResponse) (now tz : Int) (fuel : Nat)
    (s : FullState) (day : Int) (out : GetOut) (l : List event)
    (hrun : getDayEvents P now tz fuel s day false = some out)
    (hres : out.result = .ok l) :
    (out.s = s ∧ s.gcal.eventsBuffer.isEmpty = false ∧
        tooCloseToBufferStart s day = false ∧ tooCloseToBufferEnd s day = false) ∨
      (out.s.gcal.requestStartDate = newStartDate tz day ∧
        out.s.gcal.requestEndDate = newEndDate tz day) := by
  unfold getDayEvents at hrun
  split at hrun
  · split at hrun
    · exact absurd hrun (by simp)
    · rename_i out' heq
      split at hrun
      · cases hrun
        exact absurd hres (by simp)
      · right
        exact getDayEventsChecks_ok_window P now tz fuel out'.s day 1 true out l
          (retrieveEventsAround_window P now tz fuel s day out' heq) hrun hres
  · rename_i hne
    unfold getDayEventsChecks at hrun
    split at hrun
    · split at hrun
      · exact absurd hrun (by simp)
      · rename_i out' heq
        split at hrun
        · cases hrun
          exact absurd hres (by simp)
        · right
          rw [getDayEventsTail_false_state] at hrun
          cases hrun
          exact retrieveEventsAround_window P now tz fuel s day out' heq
    · rename_i hc1
      split at hrun
      · split at hrun
        · exact absurd hrun (by simp)
        · rename_i out' heq
          split at hrun
          · cases hrun
            exact absurd hres (by simp)
          · right
            rw [getDayEventsTail_false_state] at hrun
            cases hrun
            exact retrieveEventsAround_window P now tz fuel s day out' heq
      · rename_i hc2
        left
        rw [getDayEventsTail_false_state] at hrun
        cases hrun
        exact ⟨rfl, Bool.eq_false_iff.mpr hne, Bool.eq_false_iff.mpr hc1,
          Bool.eq_false_iff.mpr hc2⟩

/-- A force-free call on a non-empty cache with the day safely inside the
window is served from the cache: no fetch, state unchanged. -/
lemma getDayEvents_cache_serve
    (P : listRequest → Except apiError apiResponse) (now tz : Int) (fuel : Nat)
    (s : FullState) (day : Int)
    (hbuf : s.gcal.eventsBuffer.isEmpty = false)
    (h1 : tooCloseToBufferStart s day = false)
    (h2 : tooCloseToBufferEnd s day = false) :
    getDayEvents P now tz fuel s day false =
      some { result := .ok (filterDay tz day s.gcal.eventsBuffer)
             s := s, fetches := 0 } := by
  unfold getDayEvents getDayEventsChecks
  rw [if_neg (by simp [hbuf]), if_neg (by simp [h1]), if_neg (by simp [h2]),
    getDayEventsTail_false_state]

/-- C8 counterexample: from a state whose window and token never change, two
successive force-free getDayEvents calls for the same day both return to the
identical state and each performs one fetch — two fetches for the sequence,
not at most one — because a sync that leaves the cache empty makes the next
call fetch again. -/
theorem getDayEvents_idempotent_counterexample :
    getDayEvents c8P 0 0 1 c8S 0 false =
        some { result := .ok [], s := c8S, fetches := 1 } ∧
      (match getDayEvents c8P 0 0 1 c8S 0 false with
       | some o => getDayEvents c8P 0 0 1 o.s 0 false
       | none => none) =
        some { result := .ok [], s := c8S, fetches := 1 } :=
  ⟨by decide, by decide⟩

/-- C8 amended: repeated force-free getDayEvents calls for one day perform at
most one fetch provided the fetch leaves a non-empty cache: after a successful
call whose final cache is non-empty, the next call for the same day (under a
real-world zone offset, at most 14 h in magnitude) performs zero fetches and
leaves the state unchanged, hence so do all later ones. -/
theorem getDayEvents_idempotent
    (P : listRequest → Except apiError apiResponse) (now tz : Int) (fuel fuel2 : Nat)
    (s : FullState) (day : Int) (out : GetOut) (l : List event)
    (htz1 : -50400 ≤ tz) (htz2 : tz ≤ 50400)
    (hrun : getDayEvents P now tz fuel s day false = some out)
    (hres : out.result = .ok l)
    (hbuf : out.s.gcal.eventsBuffer ≠ []) :
    getDayEvents P now tz fuel2 out.s day false =
      some { result := .ok (filterDay tz day out.s.gcal.eventsBuffer)
             s := out.s, fetches := 0 } := by
  have hbuf' : out.s.gcal.eventsBuffer.isEmpty = false := by
    simpa [List.isEmpty_iff] using hbuf
  rcases getDayEvents_ok_state P now tz fuel s day out l hrun hres with
    ⟨hS, hie, h1, h2⟩ | ⟨hw1, hw2⟩
  · rw [hS]
    rw [hS] at hbuf'
    exact getDayEvents_cache_serve P now tz fuel2 s day hbuf' h1 h2
  · have h1 : tooCloseToBufferStart out.s day = false := by
      rw [Bool.eq_false_iff, Ne, tooCloseToBufferStart_iff, hw1]
      unfold newStartDate truncDay
      rw [Int.tdiv_eq_ediv (by omega) (by norm_num)]
      omega
    have h2 : tooCloseToBufferEnd out.s day = false := by
      rw [Bool.eq_false_iff, Ne, tooCloseToBufferEnd_iff, hw2]
      unfold newEndDate truncDay
      rw [Int.tdiv_eq_ediv (by omega) (by norm_num)]
      omega
    exact getDayEvents_cache_serve P now tz fuel2 out.s day hbuf' h1 h2

theorem getDayEvents_idempotent_witness :
    getDayEvents c8wP 0 0 1 c8wS2 0 false =
      some { result := .ok (filterDay 0 0 c8wS2.gcal.eventsBuffer)
             s := c8wS2, fetches := 0 } := by
  have hrun : getDayEvents c8wP 0 0 1 c8wS 0 false =
      some { result := .ok c8wS2.gcal.eventsBuffer, s := c8wS2, fetches := 1 } := by decide
  exact getDayEvents_idempotent c8wP 0 0 1 1 c8wS 0
    { result := .ok c8wS2.gcal.eventsBuffer, s := c8wS2, fetches := 1 }
    c8wS2.gcal.eventsBuffer (by norm_num) (by norm_num) hrun rfl (by decide)

/-- C9: the day list getDayEvents serves holds value copies of the cached
events, so the UI clearing the notifiable flag on its copy (notify in
daily.go) does not reach the engine's cache: the cache entry keeps
notifiable true, it is part of the list a repeated call for the same day
returns, and that repeated call leaves the state untouched, while the UI's
own copy has notifiable false. -/
theorem getDayEvents_notify_frame
    (P : listRequest → Except apiError apiResponse) (now tz : Int) (fuel : Nat)
    (s : FullState) (day : Int) (e : event)
    (he : e ∈ s.gcal.eventsBuffer) (hn : e.notifiable = true)
    (hd : isOnSameDay tz day e.start = true)
    (h1 : tooCloseToBufferStart s day = false)
    (h2 : tooCloseToBufferEnd s day = false) :
    getDayEvents P now tz fuel s day false =
        some { result := .ok (filterDay tz day s.gcal.eventsBuffer)
               s := s, fetches := 0 } ∧
      e ∈ filterDay tz day s.gcal.eventsBuffer ∧
      (notifyEvent e).notifiable = false ∧
      e.notifiable = true := by
  refine ⟨?_, ?_, rfl, hn⟩
  · exact getDayEvents_cache_serve P now tz fuel s day
      (by simpa [List.isEmpty_iff] using List.ne_nil_of_mem he) h1 h2
  · exact List.mem_filter.mpr ⟨he, hd⟩

theorem getDayEvents_notify_frame_witness :
    (getDayEvents c4P 0 0 1 c4S 43200 false =
        some { result := .ok (filterDay 0 43200 c4S.gcal.eventsBuffer)
               s := c4S, fetches := 0 }) ∧
      c4evA ∈ filterDay 0 43200 c4S.gcal.eventsBuffer ∧
      (notifyEvent c4evA).notifiable = false ∧
      c4evA.notifiable = true :=
  getDayEvents_notify_frame c4P 0 0 1 c4S 43200 c4evA
    (by decide) (by decide) (by decide) (by decide) (by decide)
